import Mathlib

/-!
Shallow embedding of the `auth` repository (Go): the SQLite-backed credential
and token store, the `Token` base64 text encoding, the transactional
`DBAuthenticator`, and the HTTP handlers of `http.go`.

Conventions of the embedding:
* The database is a `Store`: the `USER` and `TOKEN` tables as lists of rows in
  insertion order (SQLite returns rows of an unordered query in rowid order,
  which for these tables is insertion order; `QueryRowContext` takes the first
  row of the result set, modelled by `List.find?`).
* Machine times (`time.Time`, compared via `UnixMilli`) are `Int` milliseconds.
* Byte strings (`[]byte`) are `List Nat` with each element a byte value.
* External collaborators are explicit parameters: `bcrypt.CompareHashAndPassword`
  is a boolean predicate `check : String → String → Bool` (hashes produced by
  `bcrypt.GenerateFromPassword` are well formed, so the only outcomes on them
  are match / mismatch), `bcrypt.GenerateFromPassword` is `hashFn : String →
  String` (it cannot fail at `bcrypt.DefaultCost`), `mail.ParseAddress` success
  is `parseOk : String → Bool`, `crypto/rand.Read` provides the drawn bytes
  `rnd` plus a success flag, and `BeginTx` / `Commit` failures of `database/sql`
  are boolean oracles.
* Fallible Go functions return `Except AuthErr α`; mutating ones also return
  the updated `Store` (rolled-back state on failure, exactly as the code).
-/

namespace AuthRepo

/-- Byte strings (`[]byte` in Go) as lists of byte values. -/
abbrev Bytes := List Nat

/-- The closed set of error values the package produces: the sentinel errors
`errBadCredentials` and `errInvalidToken`, opaque internal failures (store,
random source, transaction), and `fmt.Errorf("...: %w", err)` wrapping. -/
inductive AuthErr where
  | badCredentials
  | invalidToken
  | internal (op : String)
  | wrap (op : String) (e : AuthErr)
deriving DecidableEq, Repr

/-- Go's `errors.Is`: an error "is" a sentinel if it equals it or wraps it. -/
def AuthErr.is : AuthErr → AuthErr → Bool
  | e, target =>
    match e with
    | .wrap _ inner => e == target || AuthErr.is inner target
    | _ => e == target

/-- A row of the `USER` table (`ID`, `EMAIL`, `BCRYPT`; the unused `VALID`
column is never read or written by the code and is omitted). -/
structure UserRow where
  id : String
  email : String
  bcrypt : String
deriving DecidableEq, Repr

/-- A row of the `TOKEN` table (`UID`, `TOKEN`, `START_TIME`, `END_TIME`). -/
structure TokenRow where
  uid : String
  token : Bytes
  startTime : Int
  endTime : Int
deriving DecidableEq, Repr

/-- The database state: both tables, rows in insertion order. -/
structure Store where
  users : List UserRow
  tokens : List TokenRow
deriving DecidableEq, Repr

/-- `SELECT BCRYPT FROM USER WHERE ID = ? OR EMAIL = ?` via `QueryRowContext`:
the first matching row. -/
def findUserByIdOrEmail (s : Store) (idOrEmail : String) : Option UserRow :=
  s.users.find? (fun u => u.id == idOrEmail || u.email == idOrEmail)

/-- `Authenticate(ctx, db, idOrEmail, password)`: scan the bcrypt hash of the
user matching the identifier; `sql.ErrNoRows` becomes `errBadCredentials`;
then `bcrypt.CompareHashAndPassword` (the `check` parameter); a mismatch also
becomes `errBadCredentials`. -/
def Authenticate (check : String → String → Bool) (s : Store)
    (idOrEmail password : String) : Except AuthErr Unit :=
  match findUserByIdOrEmail s idOrEmail with
  | none => .error .badCredentials
  | some u => if check u.bcrypt password then .ok () else .error .badCredentials

/-- `LookupByEmail(ctx, db, email)`: `SELECT ID FROM USER WHERE EMAIL=?`;
no row becomes `errBadCredentials`. -/
def LookupByEmail (s : Store) (email : String) : Except AuthErr String :=
  match s.users.find? (fun u => u.email == email) with
  | none => .error .badCredentials
  | some u => .ok u.id

/-- `Lookup(ctx, db, t, now)`: `SELECT UID FROM TOKEN WHERE TOKEN=? AND
START_TIME <= now AND END_TIME >= now`; no row becomes `errInvalidToken`. -/
def Lookup (s : Store) (t : Bytes) (nowMs : Int) : Except AuthErr String :=
  match s.tokens.find? (fun r =>
      r.token == t && decide (r.startTime ≤ nowMs) && decide (nowMs ≤ r.endTime)) with
  | none => .error .invalidToken
  | some r => .ok r.uid

/-- `GenerateToken(ctx, db, uid, start, end)`: draw 16 random bytes (`randOk`
is the success of `rand.Read`, `rnd` the bytes drawn), then `INSERT INTO TOKEN`;
the insert fails on a `TOKEN` primary-key collision. Returns the rolled-back
store on failure. -/
def GenerateToken (randOk : Bool) (rnd : Bytes) (s : Store) (uid : String)
    (startMs endMs : Int) : Except AuthErr Bytes × Store :=
  if ¬ randOk then (.error (.wrap ("read random") (.internal ("rand"))), s)
  else if s.tokens.any (fun r => r.token == rnd) then
    (.error (.wrap ("insert") (.internal ("unique constraint"))), s)
  else
    (.ok rnd, { s with tokens := s.tokens ++ [⟨uid, rnd, startMs, endMs⟩] })

/-- `ReapTokens(ctx, db, olderThan)`: `DELETE FROM TOKEN WHERE END_TIME < ?`. -/
def ReapTokens (s : Store) (olderThanMs : Int) : Except AuthErr Unit × Store :=
  (.ok (), { s with tokens := s.tokens.filter (fun r => ¬ (r.endTime < olderThanMs)) })

/-- `RegisterUser(ctx, db, id, email, password)`: `mail.ParseAddress` (the
`parseOk` parameter), `bcrypt.GenerateFromPassword` (the `hashFn` parameter),
then `INSERT INTO USER`; the insert fails if the id (primary key) or the email
(unique) already exists. -/
def RegisterUser (parseOk : String → Bool) (hashFn : String → String) (s : Store)
    (id email password : String) : Except AuthErr Unit × Store :=
  if ¬ parseOk email then
    (.error (.wrap ("parsing email address " ++ email) (.internal ("mail"))), s)
  else if s.users.any (fun u => u.id == id || u.email == email) then
    (.error (.wrap ("insert user") (.internal ("unique constraint"))), s)
  else
    (.ok (), { s with users := s.users ++ [⟨id, email, hashFn password⟩] })

/-! ### Token text encoding

`Token` is `[16]byte`; `String`/`MarshalText` encode with
`base64.StdEncoding.EncodeToString`, `UnmarshalText` decodes with
`base64.StdEncoding.Decode(t[:], text)` into the fixed 16-byte receiver.

The decoder below models `(*Encoding).Decode` of Go's `encoding/base64` for
`StdEncoding`, following its `decodeQuantum` loop: four data characters per
quantum ( `'\n'` and `'\r'` are skipped), padding `'='` legal only as the
third or fourth character of a final quantum, trailing characters after the
padding other than newlines reported as corrupt input *after* the final bytes
have been written, and any other non-alphabet character reported as corrupt
input with nothing further written.  `Decode` never bounds-checks the
destination against the decoded length: a quantum whose highest destination
index falls outside the buffer is written highest-index-first, so it panics
with none of the quantum's bytes written — modelled by the `crash` outcome.
(The stdlib's vectorized fast paths only run when the destination has spare
room and produce the same written bytes, so the quantum path is the whole
observable behaviour up to scratch bytes beyond the returned count.) -/

/-- The standard base64 alphabet (Go's `encodeStd` constant), in index
order. -/
def b64Alphabet : List Char :=
  ("ABCDEFGHIJKLMNOPQRSTUVWXYZabcdefghijklmnopqrstuvwxyz0123456789+/").toList

/-- The character encoding a 6-bit value. -/
def encChar (v : Nat) : Char := b64Alphabet.getD v 'A'

/-- Go's `decodeMap`: the 6-bit value of an alphabet character, `none` for
any other byte. -/
def decMap (c : Char) : Option Nat := b64Alphabet.findIdx? (fun a => a == c)

/-- `base64.StdEncoding` encoding of a byte string, three bytes to four
characters, with `=` padding on a final group of one or two bytes. -/
def b64EncodeGroups : List Nat → List Char
  | [] => []
  | [b0] => [encChar (b0 / 4), encChar (b0 % 4 * 16), '=', '=']
  | [b0, b1] =>
    [encChar (b0 / 4), encChar (b0 % 4 * 16 + b1 / 16), encChar (b1 % 16 * 4), '=']
  | b0 :: b1 :: b2 :: rest =>
    encChar (b0 / 4) :: encChar (b0 % 4 * 16 + b1 / 16) ::
      encChar (b1 % 16 * 4 + b2 / 64) :: encChar (b2 % 64) :: b64EncodeGroups rest

/-- Decoder state: inside a quantum with `j` data characters seen, after the
first `=` of a `==` ending, or past the padding (only newlines may follow). -/
inductive DMode where
  | data (j : Nat) (d0 d1 d2 : Nat)
  | pad2 (d0 d1 : Nat)
  | tail
deriving DecidableEq, Repr

/-- Outcome of `Decode(dst, src)`: bytes written and the destination buffer,
ending normally, in `CorruptInputError`, or in an out-of-range panic. -/
inductive DecRes where
  | ok (n : Nat) (buf : Bytes)
  | err (n : Nat) (buf : Bytes)
  | crash (n : Nat) (buf : Bytes)
deriving DecidableEq, Repr

/-- The decode loop of `base64.StdEncoding.Decode` (see the section comment).
`buf` is the destination, `n` the bytes written so far. -/
def b64DecodeGo (buf : Bytes) (n : Nat) (m : DMode) : List Char → DecRes
  | [] =>
    match m with
    | .data 0 _ _ _ => .ok n buf
    | .data _ _ _ _ => .err n buf
    | .pad2 _ _ => .err n buf
    | .tail => .ok n buf
  | c :: rest =>
    match m with
    | .data j d0 d1 d2 =>
      match decMap c with
      | some v =>
        match j with
        | 0 => b64DecodeGo buf n (.data 1 v 0 0) rest
        | 1 => b64DecodeGo buf n (.data 2 d0 v 0) rest
        | 2 => b64DecodeGo buf n (.data 3 d0 d1 v) rest
        | _ =>
          let val := d0 * 262144 + d1 * 4096 + d2 * 64 + v
          if n + 2 < buf.length then
            b64DecodeGo
              (((buf.set n (val / 65536 % 256)).set (n + 1) (val / 256 % 256)).set
                (n + 2) (val % 256))
              (n + 3) (.data 0 0 0 0) rest
          else .crash n buf
      | none =>
        if c == '\n' || c == '\r' then b64DecodeGo buf n (.data j d0 d1 d2) rest
        else if c == '=' then
          match j with
          | 0 => .err n buf
          | 1 => .err n buf
          | 2 => b64DecodeGo buf n (.pad2 d0 d1) rest
          | _ =>
            let val := d0 * 262144 + d1 * 4096 + d2 * 64
            if n + 1 < buf.length then
              b64DecodeGo ((buf.set n (val / 65536 % 256)).set (n + 1) (val / 256 % 256))
                (n + 2) .tail rest
            else .crash n buf
        else .err n buf
    | .pad2 d0 d1 =>
      if c == '\n' || c == '\r' then b64DecodeGo buf n (.pad2 d0 d1) rest
      else if c == '=' then
        let val := d0 * 262144 + d1 * 4096
        if n < buf.length then
          b64DecodeGo (buf.set n (val / 65536 % 256)) (n + 1) .tail rest
        else .crash n buf
      else .err n buf
    | .tail =>
      if c == '\n' || c == '\r' then b64DecodeGo buf n .tail rest
      else .err n buf

/-- `base64.StdEncoding.Decode(buf, src)`. -/
def b64Decode (buf : Bytes) (src : List Char) : DecRes :=
  b64DecodeGo buf 0 (.data 0 0 0 0) src

/-- `Token.String()`: `base64.StdEncoding.EncodeToString(t[:])`. -/
def TokenString (t : Bytes) : String := String.mk (b64EncodeGroups t)

/-- `Token.MarshalText()`: the bytes of `Token.String()` (never fails). -/
def TokenMarshalText (t : Bytes) : List Char := b64EncodeGroups t

/-- Outcome of `Token.UnmarshalText`: the receiver's final 16 bytes, with
success, error return, or panic inside the decode. -/
inductive UnmarshalRes where
  | uok (t : Bytes)
  | uerr (t : Bytes) (msg : String)
  | ucrash (t : Bytes)
deriving DecidableEq, Repr

def UnmarshalRes.isCrash : UnmarshalRes → Bool
  | .ucrash _ => true
  | _ => false

def UnmarshalRes.isErr : UnmarshalRes → Bool
  | .uerr _ _ => true
  | _ => false

def UnmarshalRes.recv : UnmarshalRes → Bytes
  | .uok t => t
  | .uerr t _ => t
  | .ucrash t => t

/-- `Token.UnmarshalText(text)`: decode into the 16-byte receiver `recv`;
a decode error is wrapped, then a decoded length other than 16 is reported
as an error (the receiver keeps whatever was already written into it). -/
def TokenUnmarshalText (recv : Bytes) (text : List Char) : UnmarshalRes :=
  match b64Decode recv text with
  | .crash _ b => .ucrash b
  | .err _ b => .uerr b ("token: base64 decode")
  | .ok n b =>
    if n = 16 then .uok b
    else .uerr b ("token: expected 16 bytes, was " ++ toString text.length)

namespace DBAuthenticator

/-- `DBAuthenticator.Validate(ctx, t)`: `Lookup` at the current time, dropping
the user id. -/
def Validate (s : Store) (t : Bytes) (nowMs : Int) : Except AuthErr Unit :=
  match Lookup s t nowMs with
  | .error e => .error e
  | .ok _ => .ok ()

/-- `DBAuthenticator.Register(ctx, email, password)`: `RegisterUser` with the
email passed as both the id and the email argument. -/
def Register (parseOk : String → Bool) (hashFn : String → String) (s : Store)
    (email password : String) : Except AuthErr Unit × Store :=
  RegisterUser parseOk hashFn s email email password

/-- `DBAuthenticator.Authenticate(ctx, email, password)`: inside one
transaction (`BeginTx` success is `beginOk`, `Commit` success is `commitOk`;
`defer tx.Rollback()` discards the transaction's writes unless the commit
succeeded), run the credential check, resolve the user id from the email,
and generate a token valid from one second before now to 24 hours after now.
Returns the token, the expiry, and the resulting store. -/
def Authenticate (check : String → String → Bool)
    (beginOk randOk commitOk : Bool) (rnd : Bytes) (nowMs : Int) (s : Store)
    (email password : String) : Except AuthErr (Bytes × Int) × Store :=
  let expiry := nowMs + 86400000
  if ¬ beginOk then (.error (.wrap ("open transaction") (.internal ("begin"))), s)
  else
    match AuthRepo.Authenticate check s email password with
    | .error e => (.error (.wrap ("authorization") e), s)
    | .ok _ =>
      match LookupByEmail s email with
      | .error e => (.error (.wrap ("lookup email") e), s)
      | .ok uid =>
        match GenerateToken randOk rnd s uid (nowMs - 1000) expiry with
        | (.error e, _) => (.error (.wrap ("generate token") e), s)
        | (.ok t, sTx) =>
          if commitOk then (.ok (t, expiry), sTx)
          else (.error (.wrap ("commit") (.internal ("commit"))), s)

end DBAuthenticator

/-! ### HTTP layer (`http.go`)

The handlers are embedded against the `Authenticator` / `Validator`
interfaces, exactly as `http.go` is written: the authenticate, register and
validate calls are function parameters.  A `Request` carries the parts of
`*http.Request` the handlers read; a `Response` is the observable reply
(status, `Location` header, `Set-Cookie` header, body).  `url.QueryEscape`
is embedded for single-byte characters (the only ones these URLs contain);
`time.Time.Format(RFC3339)` on the cookie expiry is an opaque parameter, and
the two HTML pages (out of scope per the spec) are opaque functions of the
query string they interpolate. -/

/-- An uppercase hexadecimal digit (Go's `upperhex` constant, indexed). -/
def hexUpper (n : Nat) : Char :=
  ("0123456789ABCDEF").toList.getD n '0'

/-- `url.QueryEscape` on one character: unreserved characters kept, space to
`+`, anything else percent-encoded. -/
def queryEscapeChar (c : Char) : List Char :=
  if c.isAlphanum || c == '-' || c == '_' || c == '.' || c == '~' then [c]
  else if c == ' ' then ['+']
  else ['%', hexUpper (c.toNat / 16 % 16), hexUpper (c.toNat % 16)]

/-- `url.QueryEscape` (single-byte characters). -/
def queryEscape (s : String) : String :=
  String.mk ((s.toList.map queryEscapeChar).flatten)

/-- The parts of `*http.Request` read by the handlers: the method, whether
`ParseForm` succeeds, the `email` and `password` form values, the `redirect`
query parameter (empty when absent), the raw query string, `r.URL.String()`,
and the `auth_token` cookie value (`none` when the cookie is missing). -/
structure Request where
  method : String
  parseFormOk : Bool
  formEmail : String
  formPassword : String
  redirectParam : String
  rawQuery : String
  urlString : String
  authCookie : Option String
deriving DecidableEq, Repr

/-- The client-visible reply: status code, `Location` header (redirects),
`Set-Cookie` header, body. -/
structure Response where
  status : Nat
  body : String
  location : Option String
  setCookie : Option String
deriving DecidableEq, Repr

/-- `http.Error(w, msg, status)`. -/
def httpError (msg : String) (status : Nat) : Response :=
  { status := status, body := msg, location := none, setCookie := none }

/-- `http.Redirect(w, r, url, http.StatusFound)`. -/
def httpRedirect (url : String) : Response :=
  { status := 302, body := "", location := some url, setCookie := none }

/-- The login form HTML, interpolating the raw query (content out of scope). -/
def loginPageHTML (rawQuery : String) : String :=
  "<html> Login form " ++ rawQuery ++ " </html>"

/-- The signup form HTML, interpolating the raw query (content out of scope). -/
def signupPageHTML (rawQuery : String) : String :=
  "<html> Sign Up form " ++ rawQuery ++ " </html>"

/-- `AuthServer.loginPageHandler`: GET renders the form; non-POST otherwise is
400; `ParseForm` failure is 400; `Authenticate` failure is 401 when
`errors.Is(err, errBadCredentials)` (generic message) and 500 otherwise; on
success set the `auth_token` cookie and redirect (302) to the `redirect`
query parameter, or to `/` when it is empty. -/
def loginPageHandler (auth : String → String → Except AuthErr (Bytes × Int))
    (rfc3339 : Int → String) (r : Request) : Response :=
  if r.method == "GET" then
    { status := 200, body := loginPageHTML r.rawQuery, location := none, setCookie := none }
  else if ¬ (r.method == "POST") then
    httpError ("invalid method: " ++ r.method) 400
  else if ¬ r.parseFormOk then
    httpError ("parse form: error") 400
  else
    match auth r.formEmail r.formPassword with
    | .error e =>
      if e.is .badCredentials then
        httpError ("authenticate: failed to authenticate, username or password is incorrect") 401
      else
        httpError ("authenticate: error") 500
    | .ok (t, expiry) =>
      { status := 302
        body := ""
        location := some (if r.redirectParam == "" then "/" else r.redirectParam)
        setCookie := some ("auth_token=" ++ TokenString t ++ "; Expires=" ++
          rfc3339 expiry ++ "; Secure; Path=/") }

/-- `AuthServer.signupPageHandler`: GET renders the form; non-POST otherwise
is 400; `ParseForm` failure is 400; any `Register` failure is 400 with error
detail; on success fall through to `loginPageHandler` on the same request. -/
def signupPageHandler (reg : String → String → Except AuthErr Unit)
    (auth : String → String → Except AuthErr (Bytes × Int))
    (rfc3339 : Int → String) (r : Request) : Response :=
  if r.method == "GET" then
    { status := 200, body := signupPageHTML r.rawQuery, location := none, setCookie := none }
  else if ¬ (r.method == "POST") then
    httpError ("invalid method: " ++ r.method) 400
  else if ¬ r.parseFormOk then
    httpError ("parse form: error") 400
  else
    match reg r.formEmail r.formPassword with
    | .error _ => httpError ("create user: error") 400
    | .ok _ => loginPageHandler auth rfc3339 r

/-- What serving one request does: produce a response, or crash in a panic
before any reply is written. -/
inductive HandlerOutcome where
  | resp (response : Response)
  | crashed
deriving DecidableEq, Repr

/-- `AuthFilter.Handler`: read the `auth_token` cookie (missing → redirect to
the login URL with the escaped original URL as the `redirect` parameter),
parse it with `Token.UnmarshalText` on a zero token (error → same redirect;
a panic inside the decode crashes the request), validate it (error → same
redirect), and on success invoke the wrapped handler with the parsed token. -/
def AuthFilterHandler (validate : Bytes → Except AuthErr Unit) (loginURL : String)
    (h : Bytes → Request → Response) (r : Request) : HandlerOutcome :=
  let redirectURL := loginURL ++ "?redirect=" ++ queryEscape r.urlString
  match r.authCookie with
  | none => .resp (httpRedirect redirectURL)
  | some v =>
    match TokenUnmarshalText (List.replicate 16 0) v.toList with
    | .ucrash _ => .crashed
    | .uerr _ _ => .resp (httpRedirect redirectURL)
    | .uok t =>
      match validate t with
      | .error _ => .resp (httpRedirect redirectURL)
      | .ok _ => .resp (h t r)

/-! ### Concrete sample values used by witnesses and counterexamples -/

/-- A deterministic stand-in for bcrypt: hash a password by tagging it. -/
def hashStub (password : String) : String := "H:" ++ password

/-- The matching comparison stand-in. -/
def checkStub (hash password : String) : Bool := hash == hashStub password

/-- An email-format check accepting everything (the samples are well formed). -/
def parseOkAll (_email : String) : Bool := true

/-- A store holding the one registered sample user. -/
def sampleStore : Store :=
  { users := [{ id := "user1", email := "lol@localhost", bcrypt := hashStub ("pw1") }],
    tokens := [] }

/-- The all-zero 16-byte token (`var t Token` in Go). -/
def zeroToken : Bytes := List.replicate 16 0

/-- A sample 16-byte token value. -/
def sampleToken : Bytes :=
  [0, 17, 34, 51, 68, 85, 102, 119, 136, 153, 170, 187, 204, 221, 238, 255]

/-- A sample random draw for token generation. -/
def rndToken : Bytes := List.replicate 16 7

/-- The store after generating `rndToken` for user `test` on `[0, 1000]`. -/
def tokenStore : Store :=
  { users := [], tokens := [{ uid := "test", token := rndToken, startTime := 0, endTime := 1000 }] }

/-- A store holding one token ending at 1000 and one ending at 2000. -/
def reapStore : Store :=
  { users := [],
    tokens := [{ uid := "test", token := rndToken, startTime := 0, endTime := 1000 },
               { uid := "test", token := sampleToken, startTime := 0, endTime := 2000 }] }

/-- A well-formed POST request to the auth pages. -/
def postReq : Request :=
  { method := "POST", parseFormOk := true, formEmail := "e@x.com", formPassword := "pw",
    redirectParam := "", rawQuery := "", urlString := "/auth/login", authCookie := none }

/-- A `Register` implementation failing with an internal store error. -/
def regStoreFail (_email _password : String) : Except AuthErr Unit :=
  .error (.wrap ("insert user") (.internal ("disk failure")))

/-- An `Authenticate` implementation that always succeeds. -/
def authOkStub (_email _password : String) : Except AuthErr (Bytes × Int) :=
  .ok (zeroToken, 0)

/-- An opaque RFC3339 formatter for the sample runs. -/
def rfcStub (_ms : Int) : String := "2026-01-01T00:00:00Z"

/-- A `Validate` implementation accepting exactly the zero token. -/
def validateStub (t : Bytes) : Except AuthErr Unit :=
  if t == zeroToken then .ok () else .error .invalidToken

/-- A wrapped protected handler. -/
def protectedHandler (_t : Bytes) (_r : Request) : Response :=
  { status := 200, body := "secret", location := none, setCookie := none }

/-- The configured login URL of the sample filter. -/
def loginURL0 : String := "http://localhost:8090/auth/login"

/-- A protected request carrying no `auth_token` cookie. -/
def reqNoCookie : Request :=
  { method := "GET", parseFormOk := true, formEmail := "", formPassword := "",
    redirectParam := "", rawQuery := "", urlString := "/secured?a=1", authCookie := none }

/-- The same request with a malformed (4-character) cookie. -/
def reqBadCookie : Request := { reqNoCookie with authCookie := some ("AAAA") }

/-- The same request with a well-formed cookie that fails validation. -/
def reqStaleCookie : Request :=
  { reqNoCookie with authCookie := some ("/////////////////////w==") }

/-- The same request with the valid zero-token cookie. -/
def reqGoodCookie : Request :=
  { reqNoCookie with authCookie := some ("AAAAAAAAAAAAAAAAAAAAAA==") }

/-- The same request with a 28-character cookie of base64 alphabet bytes. -/
def reqLongCookie : Request :=
  { reqNoCookie with authCookie := some ("AAAAAAAAAAAAAAAAAAAAAAAAAAAA") }

/-! ### Helper lemmas -/

/-- `find?` over a filter that keeps every element the search predicate
accepts finds the same result as over the unfiltered list. -/
theorem find?_filter_of_kept {α : Type} (p q : α → Bool) :
    ∀ l : List α, (∀ a ∈ l, p a = true → q a = true) →
      (l.filter q).find? p = l.find? p := by
  intro l
  induction l with
  | nil => intro _; rfl
  | cons a l ih =>
    intro h
    by_cases hq : q a
    · rw [List.filter_cons_of_pos hq]
      by_cases hp : p a
      · rw [List.find?_cons_of_pos _ hp, List.find?_cons_of_pos _ hp]
      · rw [List.find?_cons_of_neg _ hp, List.find?_cons_of_neg _ hp]
        exact ih fun x hx => h x (List.mem_cons_of_mem a hx)
    · have hp : ¬ p a = true := fun hpa => hq (h a (List.mem_cons_self a l) hpa)
      rw [List.filter_cons_of_neg hq, List.find?_cons_of_neg _ hp]
      exact ih fun x hx => h x (List.mem_cons_of_mem a hx)

/-- Writing a byte string into a buffer from position `n` on, one `List.set`
per byte (the cumulative effect of the decoder's in-bounds writes). -/
def writeList (buf : Bytes) (n : Nat) : Bytes → Bytes
  | [] => buf
  | b :: bs => writeList (buf.set n b) (n + 1) bs

/-- The decode map inverts the encode map on 6-bit values. -/
theorem decMap_encChar {v : Nat} (h : v < 64) : decMap (encChar v) = some v := by
  have hall : ∀ w : Fin 64, decMap (encChar w.val) = some w.val := by decide
  exact hall ⟨v, h⟩

/-- The padding character is not in the decode map. -/
theorem decMap_padChar : decMap '=' = none := by decide

theorem writeList_cons_succ (bs : Bytes) : ∀ (a : Nat) (buf : Bytes) (n : Nat),
    writeList (a :: buf) (n + 1) bs = a :: writeList buf n bs := by
  induction bs with
  | nil => intro a buf n; rfl
  | cons b bs ih =>
    intro a buf n
    show writeList ((a :: buf).set (n + 1) b) (n + 2) bs = a :: writeList (buf.set n b) (n + 1) bs
    exact ih a (buf.set n b) (n + 1)

/-- Writing a byte string over an equally long buffer replaces it. -/
theorem writeList_full (bs : Bytes) : ∀ buf : Bytes, buf.length = bs.length →
    writeList buf 0 bs = bs := by
  induction bs with
  | nil =>
    intro buf h
    cases buf with
    | nil => rfl
    | cons c buf => simp at h
  | cons b bs ih =>
    intro buf h
    cases buf with
    | nil => simp at h
    | cons c buf =>
      show writeList ((c :: buf).set 0 b) 1 bs = b :: bs
      rw [List.set_cons_zero, writeList_cons_succ bs b buf 0,
        ih buf (by simpa using h)]

/-- Decoding the encoding of a byte string writes exactly those bytes back,
from position `n` on, whenever the buffer has room for them. -/
theorem dec_enc_aux : ∀ (bs buf : Bytes) (n : Nat),
    (∀ b ∈ bs, b < 256) → n + bs.length ≤ buf.length →
    b64DecodeGo buf n (.data 0 0 0 0) (b64EncodeGroups bs)
      = .ok (n + bs.length) (writeList buf n bs)
  | [], buf, n, _, _ => by simp [b64EncodeGroups, b64DecodeGo, writeList]
  | [b0], buf, n, hb, hlen => by
    have h0 : b0 < 256 := hb b0 (by simp)
    have e0 : (b0 / 4 * 262144 + b0 % 4 * 16 * 4096) / 65536 % 256 = b0 := by omega
    have hn : n < buf.length := by simp at hlen; omega
    simp +decide [b64EncodeGroups, b64DecodeGo, decMap_padChar,
      decMap_encChar (show b0 / 4 < 64 by omega),
      decMap_encChar (show b0 % 4 * 16 < 64 by omega), hn, e0, writeList]
  | [b0, b1], buf, n, hb, hlen => by
    have h0 : b0 < 256 := hb b0 (by simp)
    have h1 : b1 < 256 := hb b1 (by simp)
    have e0 : (b0 / 4 * 262144 + (b0 % 4 * 16 + b1 / 16) * 4096 + b1 % 16 * 4 * 64)
        / 65536 % 256 = b0 := by omega
    have e1 : (b0 / 4 * 262144 + (b0 % 4 * 16 + b1 / 16) * 4096 + b1 % 16 * 4 * 64)
        / 256 % 256 = b1 := by omega
    have hn : n + 1 < buf.length := by simp at hlen; omega
    simp +decide [b64EncodeGroups, b64DecodeGo, decMap_padChar,
      decMap_encChar (show b0 / 4 < 64 by omega),
      decMap_encChar (show b0 % 4 * 16 + b1 / 16 < 64 by omega),
      decMap_encChar (show b1 % 16 * 4 < 64 by omega), hn, e0, e1, writeList]
  | b0 :: b1 :: b2 :: rest, buf, n, hb, hlen => by
    have h0 : b0 < 256 := hb b0 (by simp)
    have h1 : b1 < 256 := hb b1 (by simp)
    have h2 : b2 < 256 := hb b2 (by simp)
    have e0 : (b0 / 4 * 262144 + (b0 % 4 * 16 + b1 / 16) * 4096
        + (b1 % 16 * 4 + b2 / 64) * 64 + b2 % 64) / 65536 % 256 = b0 := by omega
    have e1 : (b0 / 4 * 262144 + (b0 % 4 * 16 + b1 / 16) * 4096
        + (b1 % 16 * 4 + b2 / 64) * 64 + b2 % 64) / 256 % 256 = b1 := by omega
    have e2 : (b0 / 4 * 262144 + (b0 % 4 * 16 + b1 / 16) * 4096
        + (b1 % 16 * 4 + b2 / 64) * 64 + b2 % 64) % 256 = b2 := by omega
    have hn : n + 2 < buf.length := by simp at hlen; omega
    have hrec := dec_enc_aux rest
      (((buf.set n b0).set (n + 1) b1).set (n + 2) b2) (n + 3)
      (fun b hbmem => hb b (by simp at hbmem ⊢; tauto))
      (by simp at hlen ⊢; omega)
    simp only [b64EncodeGroups, b64DecodeGo,
      decMap_encChar (show b0 / 4 < 64 by omega),
      decMap_encChar (show b0 % 4 * 16 + b1 / 16 < 64 by omega),
      decMap_encChar (show b1 % 16 * 4 + b2 / 64 < 64 by omega),
      decMap_encChar (show b2 % 64 < 64 by omega)]
    rw [if_pos hn]
    rw [e0, e1, e2]
    rw [hrec]
    congr 1
    simp only [List.length_cons]
    omega

/-! ### Claims -/

/-- Claim C1: `DBAuthenticator.Authenticate` is atomic.  Whenever it returns
an error — transaction open, credential verification, email-to-id resolution,
token generation, or commit — the resulting store is the unchanged `s`; in
particular when the store-level credential check fails the stored-token table
after the call is identical to the one before it. -/
theorem C1_authenticate_atomic
    (check : String → String → Bool) (beginOk randOk commitOk : Bool)
    (rnd : Bytes) (nowMs : Int) (s : Store) (email password : String) :
    (∀ e, (DBAuthenticator.Authenticate check beginOk randOk commitOk rnd
        nowMs s email password).1 = .error e →
      (DBAuthenticator.Authenticate check beginOk randOk commitOk rnd
        nowMs s email password).2 = s)
    ∧ (∀ e, Authenticate check s email password = .error e →
      (DBAuthenticator.Authenticate check beginOk randOk commitOk rnd
        nowMs s email password).2.tokens = s.tokens) := by
  constructor
  · intro e
    unfold DBAuthenticator.Authenticate
    by_cases hb : beginOk
    · simp only [hb, not_true_eq_false, if_false]
      cases hA : Authenticate check s email password with
      | error eA => simp
      | ok _ =>
        cases hL : LookupByEmail s email with
        | error eL => simp
        | ok uid =>
          simp only []
          rcases hG : GenerateToken randOk rnd s uid (nowMs - 1000) (nowMs + 86400000)
            with ⟨rG, sG⟩
          cases rG with
          | error eG => simp
          | ok t =>
            by_cases hc : commitOk <;> simp [hc]
    · simp [hb]
  · intro e hA
    unfold DBAuthenticator.Authenticate
    by_cases hb : beginOk <;> simp [hb, hA]

/-- Witness for C1: with the sample user, a correct password, and a failing
commit, the store after the call is unchanged. -/
theorem C1_authenticate_atomic_witness :
    (DBAuthenticator.Authenticate checkStub true true false rndToken 1000 sampleStore
      ("lol@localhost") ("pw1")).2 = sampleStore :=
  (C1_authenticate_atomic checkStub true true false rndToken 1000 sampleStore
    ("lol@localhost") ("pw1")).1 (.wrap ("commit") (.internal ("commit"))) (by rfl)

/-- Claim C2: the store-level credential check returns the very same error
value `errBadCredentials` both when no user row matches the identifier and
when a row matches but the password fails the bcrypt comparison, so the two
failure causes are indistinguishable to the caller. -/
theorem C2_bad_credentials_indistinguishable
    (check : String → String → Bool) (s : Store) (idOrEmail password : String) :
    (findUserByIdOrEmail s idOrEmail = none →
      Authenticate check s idOrEmail password = .error .badCredentials)
    ∧ (∀ u, findUserByIdOrEmail s idOrEmail = some u → check u.bcrypt password = false →
      Authenticate check s idOrEmail password = .error .badCredentials) := by
  constructor
  · intro h
    simp [Authenticate, h]
  · intro u hu hc
    simp [Authenticate, hu, hc]

/-- Witness for C2: against the sample store, an unknown identifier and a
known identifier with a wrong password both yield `errBadCredentials`. -/
theorem C2_bad_credentials_indistinguishable_witness :
    Authenticate checkStub sampleStore ("ghost") ("pw1") = .error .badCredentials
    ∧ Authenticate checkStub sampleStore ("user1") ("wrong") = .error .badCredentials :=
  ⟨(C2_bad_credentials_indistinguishable checkStub sampleStore ("ghost") ("pw1")).1 (by rfl),
   (C2_bad_credentials_indistinguishable checkStub sampleStore ("user1") ("wrong")).2
     { id := "user1", email := "lol@localhost", bcrypt := hashStub ("pw1") } (by rfl) (by rfl)⟩

/-- Claim C3: after `GenerateToken` stores a token with window
`[startMs, endMs]`, `Lookup` at any `nowMs` inside the window (both bounds
inclusive, millisecond resolution) returns the owning user id, and at any
`nowMs` outside it fails with `errInvalidToken`. -/
theorem C3_lookup_window
    (randOk : Bool) (rnd : Bytes) (s sNew : Store) (uid : String)
    (startMs endMs nowMs : Int) (t : Bytes)
    (hgen : GenerateToken randOk rnd s uid startMs endMs = (.ok t, sNew)) :
    (startMs ≤ nowMs → nowMs ≤ endMs → Lookup sNew t nowMs = .ok uid)
    ∧ ((nowMs < startMs ∨ endMs < nowMs) → Lookup sNew t nowMs = .error .invalidToken) := by
  unfold GenerateToken at hgen
  by_cases hr : randOk
  · simp only [hr, not_true_eq_false, if_false] at hgen
    by_cases hdup : s.tokens.any (fun r => r.token == rnd)
    · simp [hdup] at hgen
    · simp [hdup, Prod.ext_iff] at hgen
      obtain ⟨ht', hs⟩ := hgen
      subst ht'
      subst hs
      have hany : (s.tokens.any fun r => r.token == rnd) = false := by
        simpa using hdup
      have hnone := List.any_eq_false.mp hany
      have hfind : s.tokens.find? (fun r =>
          r.token == rnd && decide (r.startTime ≤ nowMs) && decide (nowMs ≤ r.endTime))
            = none := by
        apply List.find?_eq_none.mpr
        intro r hmem hp
        apply hnone r hmem
        simp only [Bool.and_eq_true] at hp
        exact hp.1.1
      constructor
      · intro h1 h2
        unfold Lookup
        simp [List.find?_append, hfind, List.find?_cons, h1, h2]
      · intro hout
        unfold Lookup
        rcases hout with hout | hout
        · simp [List.find?_append, hfind, List.find?_cons, Int.not_le.mpr hout]
        · simp [List.find?_append, hfind, List.find?_cons, Int.not_le.mpr hout]
  · simp [hr] at hgen

/-- Witness for C3: the generated sample token is found (with owner `test`)
at time 500 inside its `[0, 1000]` window and rejected at time 5000. -/
theorem C3_lookup_window_witness :
    Lookup tokenStore rndToken 500 = .ok ("test")
    ∧ Lookup tokenStore rndToken 5000 = .error .invalidToken :=
  ⟨(C3_lookup_window true rndToken { users := [], tokens := [] } tokenStore
      ("test") 0 1000 500 rndToken (by rfl)).1 (by decide) (by decide),
   (C3_lookup_window true rndToken { users := [], tokens := [] } tokenStore
      ("test") 0 1000 5000 rndToken (by rfl)).2 (Or.inr (by decide))⟩

/-- Claim C6: `ReapTokens(cutoff)` succeeds, keeps exactly the rows whose end
time is not strictly before the cutoff, leaves every token all of whose rows
end at or after the cutoff exactly as retrievable by `Lookup` as before, and
is idempotent. -/
theorem C6_reap_exact (s : Store) (cutoff : Int) :
    ((ReapTokens s cutoff).1 = .ok ())
    ∧ ((ReapTokens s cutoff).2.tokens
        = s.tokens.filter (fun r => decide (cutoff ≤ r.endTime)))
    ∧ (∀ t nowMs, (∀ r ∈ s.tokens, r.token = t → cutoff ≤ r.endTime) →
        Lookup (ReapTokens s cutoff).2 t nowMs = Lookup s t nowMs)
    ∧ (ReapTokens (ReapTokens s cutoff).2 cutoff = ReapTokens s cutoff) := by
  refine ⟨rfl, ?_, ?_, ?_⟩
  · unfold ReapTokens
    exact List.filter_congr fun r _ => by
      simp [Int.not_lt]
  · intro t nowMs hall
    unfold Lookup ReapTokens
    rw [find?_filter_of_kept]
    intro r hmem hp
    simp only [Bool.and_eq_true, beq_iff_eq] at hp
    have := hall r hmem hp.1.1
    simpa [Int.not_lt] using this
  · unfold ReapTokens
    simp

/-- Witness for C6: reaping the two-token sample store at cutoff 1500 leaves
the token ending at 2000 exactly as retrievable at time 500 as before. -/
theorem C6_reap_exact_witness :
    Lookup (ReapTokens reapStore 1500).2 sampleToken 500 = Lookup reapStore sampleToken 500 :=
  (C6_reap_exact reapStore 1500).2.2.1 sampleToken 500 (by decide)

/-- Claim C9: `DBAuthenticator.Register` calls `RegisterUser` with the email
as both the id and the email argument, so the row a successful registration
adds has its id equal to its email, and a store in which every user's id
equals their email keeps that property across `Register`. -/
theorem C9_register_id_is_email
    (parseOk : String → Bool) (hashFn : String → String) (s : Store)
    (email password : String) :
    (DBAuthenticator.Register parseOk hashFn s email password
      = RegisterUser parseOk hashFn s email email password)
    ∧ (∀ sNew, DBAuthenticator.Register parseOk hashFn s email password = (.ok (), sNew) →
        sNew.users = s.users ++ [{ id := email, email := email, bcrypt := hashFn password }])
    ∧ ((∀ u ∈ s.users, u.id = u.email) →
        ∀ u ∈ (DBAuthenticator.Register parseOk hashFn s email password).2.users,
          u.id = u.email) := by
  refine ⟨rfl, ?_, ?_⟩
  · intro sNew h
    unfold DBAuthenticator.Register RegisterUser at h
    by_cases hp : parseOk email
    · by_cases hdup : s.users.any (fun u => u.id == email || u.email == email)
      · simp [hp, hdup] at h
      · simp [hp, hdup, Prod.ext_iff] at h
        rw [← h]
    · simp [hp] at h
  · intro hinv u hu
    unfold DBAuthenticator.Register RegisterUser at hu
    by_cases hp : parseOk email
    · by_cases hdup : s.users.any (fun u => u.id == email || u.email == email)
      · simp [hp, hdup] at hu
        exact hinv u hu
      · simp [hp, hdup] at hu
        rcases hu with hu | hu
        · exact hinv u hu
        · rw [hu]
    · simp [hp] at hu
      exact hinv u hu

/-- Claim C5: the token text encoding round-trips — for every 16-byte token
value, `UnmarshalText` applied to the output of `MarshalText` (the bytes of
`String()`) succeeds and reproduces the original 16 bytes exactly, whatever
the receiver held before. -/
theorem C5_token_text_roundtrip (t recv : Bytes) (ht : t.length = 16)
    (hb : ∀ b ∈ t, b < 256) (hrecv : recv.length = 16) :
    TokenUnmarshalText recv (TokenMarshalText t) = .uok t := by
  have h := dec_enc_aux t recv 0 hb (by omega)
  have hw : writeList recv 0 t = t := writeList_full t recv (by omega)
  unfold TokenUnmarshalText b64Decode TokenMarshalText
  rw [h, hw]
  simp [ht]

/-- Witness for C5: the sample token round-trips through its text encoding. -/
theorem C5_token_text_roundtrip_witness :
    TokenUnmarshalText zeroToken (TokenMarshalText sampleToken) = .uok sampleToken :=
  C5_token_text_roundtrip sampleToken zeroToken (by decide) (by decide) (by decide)

/-- Claim C4 (divergence): `Token.UnmarshalText` is not a total operation
ending in the error branch on every input whose length differs from 24.  A
28-character input of alphabet bytes drives `base64.StdEncoding.Decode` to
write the seventeenth decoded byte past the end of the 16-byte receiver — an
out-of-range panic, not an error return; and a 25-character input (a valid
24-character encoding plus a trailing newline, which the decoder skips)
succeeds outright. -/
theorem C4_unmarshal_not_total :
    ((TokenUnmarshalText zeroToken (("AAAAAAAAAAAAAAAAAAAAAAAAAAAA").toList)).isCrash = true
      ∧ ("AAAAAAAAAAAAAAAAAAAAAAAAAAAA").length = 28)
    ∧ (TokenUnmarshalText zeroToken (("AAAAAAAAAAAAAAAAAAAAAA==" ++ "\n").toList)
        = .uok zeroToken
      ∧ ("AAAAAAAAAAAAAAAAAAAAAA==" ++ "\n").length = 25) := by decide

/-- Claim C10: `Token.UnmarshalText` does not leave its receiver unchanged on
error: decoding the 4-character input `AAAA` into an all-255 receiver returns
an error (three bytes decoded, not sixteen), yet the first three receiver
bytes have already been overwritten with the decoded zeros. -/
theorem C10_unmarshal_mutates_on_error :
    ((TokenUnmarshalText (List.replicate 16 255) (("AAAA").toList)).isErr = true)
    ∧ ((TokenUnmarshalText (List.replicate 16 255) (("AAAA").toList)).recv.take 3 = [0, 0, 0])
    ∧ ((List.replicate 16 255 : Bytes).take 3 = [255, 255, 255]) := by decide

/-- Counterexample for C7: a signup POST whose `Register` call fails with an
internal store error is answered with status 400, not the 500 the claim
asserts for store failures reached through the signup path. -/
theorem C7_counterexample_signup_store_failure :
    (signupPageHandler regStoreFail authOkStub rfcStub postReq).status = 400
    ∧ ¬ (signupPageHandler regStoreFail authOkStub rfcStub postReq).status = 500 := by
  decide

/-- Claim C7 as amended: on the login POST path every `Authenticate` failure
other than bad credentials is answered 500, while on the signup POST path
every `Register` failure — including hashing and store failures — is
answered 400 with error detail. -/
theorem C7_internal_failure_statuses :
    (∀ (auth : String → String → Except AuthErr (Bytes × Int)) rfc (r : Request) e,
      r.method = "POST" → r.parseFormOk = true →
      auth r.formEmail r.formPassword = .error e → e.is .badCredentials = false →
      (loginPageHandler auth rfc r).status = 500)
    ∧ (∀ (reg : String → String → Except AuthErr Unit) auth rfc (r : Request) e,
      r.method = "POST" → r.parseFormOk = true →
      reg r.formEmail r.formPassword = .error e →
      (signupPageHandler reg auth rfc r).status = 400) := by
  constructor
  · intro auth rfc r e hm hp ha hbc
    simp [loginPageHandler, hm, hp, ha, hbc, httpError]
  · intro reg auth rfc r e hm hp hr
    simp [signupPageHandler, hm, hp, hr, httpError]

/-- Witness for the amended C7: a failing store during login POST yields 500,
and the failing-store signup POST yields 400. -/
theorem C7_internal_failure_statuses_witness :
    (loginPageHandler (fun _ _ => .error (.internal ("db"))) rfcStub postReq).status = 500
    ∧ (signupPageHandler regStoreFail authOkStub rfcStub postReq).status = 400 :=
  ⟨C7_internal_failure_statuses.1 (fun _ _ => .error (.internal ("db"))) rfcStub postReq
      (.internal ("db")) (by rfl) (by rfl) (by rfl) (by rfl),
    C7_internal_failure_statuses.2 regStoreFail authOkStub rfcStub postReq
      (.wrap ("insert user") (.internal ("disk failure"))) (by rfl) (by rfl) (by rfl)⟩

/-- Claim C8 (divergence included): on the sample filter, the missing-cookie,
malformed-cookie and failed-validation requests all receive the identical
302 redirect to the login URL with the URL-escaped original request URL as
the `redirect` parameter, and the valid-cookie request reaches the wrapped
handler — but a malformed cookie of 28 alphabet characters makes
`Token.UnmarshalText` panic, crashing the request instead of redirecting. -/
theorem C8_filter_redirects_and_crash :
    (AuthFilterHandler validateStub loginURL0 protectedHandler reqLongCookie = .crashed)
    ∧ (AuthFilterHandler validateStub loginURL0 protectedHandler reqNoCookie
        = .resp (httpRedirect (loginURL0 ++ "?redirect=" ++ queryEscape ("/secured?a=1"))))
    ∧ (AuthFilterHandler validateStub loginURL0 protectedHandler reqBadCookie
        = .resp (httpRedirect (loginURL0 ++ "?redirect=" ++ queryEscape ("/secured?a=1"))))
    ∧ (AuthFilterHandler validateStub loginURL0 protectedHandler reqStaleCookie
        = .resp (httpRedirect (loginURL0 ++ "?redirect=" ++ queryEscape ("/secured?a=1"))))
    ∧ (AuthFilterHandler validateStub loginURL0 protectedHandler reqGoodCookie
        = .resp (protectedHandler zeroToken reqGoodCookie)) := by
  decide

/-- Witness for C9: registering `a@x.com` in the empty store adds the row
whose id and email are both `a@x.com`. -/
theorem C9_register_id_is_email_witness :
    ({ users := [{ id := "a@x.com", email := "a@x.com", bcrypt := hashStub ("pw") }],
       tokens := [] } : Store).users
      = ({ users := [], tokens := [] } : Store).users
        ++ [{ id := "a@x.com", email := "a@x.com", bcrypt := hashStub ("pw") }] :=
  (C9_register_id_is_email parseOkAll hashStub { users := [], tokens := [] }
    ("a@x.com") ("pw")).2.1
    { users := [{ id := "a@x.com", email := "a@x.com", bcrypt := hashStub ("pw") }],
      tokens := [] } (by rfl)

end AuthRepo
